import Mathlib

/-!
Shallow embedding of the astroVizualizer frontend.

The embedded code is:
* `AsteroidScene` (src/unnamed/part_000): a pure function from a scene
  payload to a rendered scene graph (one sun sphere, and per asteroid a
  keyed group holding one sphere mesh and one orbit polyline), plus a
  per-frame rotation side effect on the enclosing group.
* `App` (src/src/frontend/src/App.tsx): a one-shot fetch state machine
  over three state variables (sceneData, loading, error) and the view
  selection derived from them.

Numeric values (coordinates, sizes, rotation angles) are embedded as
rationals: every number the code handles is carried through verbatim,
so the value domain only needs decidable equality and arithmetic.
-/

/-- A 3D coordinate triple, as used for `position` and orbit points. -/
structure Vec3 where
  x : ℚ
  y : ℚ
  z : ℚ
deriving DecidableEq, Repr

/-- One asteroid record of the scene payload (the element type of
`data.asteroids` in `AsteroidSceneProps`). -/
structure Asteroid where
  id : String
  name : String
  position : Vec3
  size : ℚ
  orbit : List Vec3
deriving DecidableEq, Repr

/-- The scene payload fetched from `/api/v1/viz/3d-scene`. -/
structure ScenePayload where
  asteroids : List Asteroid
deriving DecidableEq, Repr

/-- The parameters set on a `meshStandardMaterial` element in the source;
props that a given material does not set are `none`. -/
structure Material where
  color : String
  emissive : Option String
  emissiveIntensity : Option ℚ
  roughness : Option ℚ
  metalness : Option ℚ
deriving DecidableEq, Repr

/-- The sun's material: `color="yellow" emissive="yellow" emissiveIntensity={0.6}`. -/
def sunMaterial : Material :=
  { color := "yellow", emissive := some "yellow", emissiveIntensity := some (6/10)
  , roughness := none, metalness := none }

/-- The asteroid material: `color="gray" roughness={0.7} metalness={0.3}`. -/
def asteroidMaterial : Material :=
  { color := "gray", emissive := none, emissiveIntensity := none
  , roughness := some (7/10), metalness := some (3/10) }

/-- A rendered `Sphere` element: `args=[radius, widthSegments, heightSegments]`,
plus its `position` prop and child material. -/
structure SphereMesh where
  radius : ℚ
  widthSegments : Nat
  heightSegments : Nat
  position : Vec3
  material : Material
deriving DecidableEq, Repr

/-- A rendered `Line` element with its props. -/
structure Polyline where
  points : List Vec3
  color : String
  lineWidth : ℚ
  opacity : ℚ
  transparent : Bool
deriving DecidableEq, Repr

/-- A drawable scene element: a sphere mesh or a polyline. -/
inductive SceneElement where
  | sphere (s : SphereMesh)
  | line (l : Polyline)
deriving DecidableEq, Repr

/-- The `<group key={asteroid.id}>` subtree rendered for one asteroid. -/
structure KeyedGroup where
  key : String
  elements : List SceneElement
deriving DecidableEq, Repr

/-- The sun: `<Sphere args={[1, 32, 32]} position={[0, 0, 0]}>` with `sunMaterial`. -/
def sunSphere : SphereMesh :=
  { radius := 1, widthSegments := 32, heightSegments := 32
  , position := ⟨0, 0, 0⟩, material := sunMaterial }

/-- The subtree `AsteroidScene` renders for one asteroid record: a group keyed
by `asteroid.id` containing the asteroid sphere
(`args=[asteroid.size, 16, 16]`, `position=asteroid.position`) and the orbit
line (`points=asteroid.orbit`, white, lineWidth 1, opacity 0.3, transparent). -/
def renderAsteroid (a : Asteroid) : KeyedGroup :=
  { key := a.id
  , elements :=
      [ SceneElement.sphere
          { radius := a.size, widthSegments := 16, heightSegments := 16
          , position := a.position, material := asteroidMaterial }
      , SceneElement.line
          { points := a.orbit, color := "white", lineWidth := 1
          , opacity := 3/10, transparent := true } ] }

/-- The content of the rotating `<group ref={groupRef}>` returned by
`AsteroidScene`: the sun sphere followed by one keyed group per asteroid. -/
structure SceneGraph where
  sun : SphereMesh
  asteroidGroups : List KeyedGroup
deriving DecidableEq, Repr

/-- The body of `AsteroidScene`: the sun plus `data.asteroids.map(...)`. -/
def renderScene (data : ScenePayload) : SceneGraph :=
  { sun := sunSphere, asteroidGroups := data.asteroids.map renderAsteroid }

/-- All drawable elements of a scene graph, in document order. -/
def SceneGraph.elements (g : SceneGraph) : List SceneElement :=
  SceneElement.sphere g.sun :: (g.asteroidGroups.map KeyedGroup.elements).flatten

/-- Whether an element is a sphere mesh. -/
def SceneElement.isSphere : SceneElement → Bool
  | .sphere _ => true
  | .line _ => false

/-- Whether an element is a polyline. -/
def SceneElement.isLine : SceneElement → Bool
  | .sphere _ => false
  | .line _ => true

/-- The sphere meshes of a keyed group. -/
def KeyedGroup.sphereMeshes (kg : KeyedGroup) : List SphereMesh :=
  kg.elements.filterMap fun e =>
    match e with
    | .sphere s => some s
    | .line _ => none

/-- The polylines of a keyed group. -/
def KeyedGroup.polylines (kg : KeyedGroup) : List Polyline :=
  kg.elements.filterMap fun e =>
    match e with
    | .sphere _ => none
    | .line l => some l

/-! ## The App fetch state machine (App.tsx) -/

/-- The three `useState` variables of `App`. -/
structure AppState where
  sceneData : Option ScenePayload
  loading : Bool
  error : Option String
deriving DecidableEq, Repr

/-- The initial state: `useState(null)`, `useState(true)`, `useState(null)`. -/
def initialAppState : AppState :=
  { sceneData := none, loading := true, error := none }

/-- Causes a fetch may fail with; `App`'s single `catch` does not inspect
the cause, so the embedding carries it only to show it is ignored. -/
inductive FetchError where
  | network
  | badStatus
  | deserialization
deriving DecidableEq, Repr

/-- How the one-shot fetch settles. -/
inductive FetchOutcome where
  | success (payload : ScenePayload)
  | failure (cause : FetchError)
deriving DecidableEq, Repr

/-- The settling code of `fetchSceneData`: on success
`setSceneData(response.data); setLoading(false)`, on any failure
`setError('Failed to load asteroid data'); setLoading(false)`. -/
def settle (o : FetchOutcome) (s : AppState) : AppState :=
  match o with
  | .success p => { s with sceneData := some p, loading := false }
  | .failure _ => { s with error := some "Failed to load asteroid data", loading := false }

/-- `useEffect(..., [])` runs `fetchSceneData` exactly once per mount, so a
mount's state trace is the initial state followed by the settled state. -/
def mountTrace (o : FetchOutcome) : List AppState :=
  [initialAppState, settle o initialAppState]

/-- The user-visible display phases of `App`. -/
inductive Phase where
  | loading
  | ready
  | failed
deriving DecidableEq, Repr

/-- The phase `App`'s early returns select: `loading` first, then `error`,
otherwise the canvas. -/
def AppState.phase (s : AppState) : Phase :=
  if s.loading then Phase.loading
  else if s.error.isSome then Phase.failed
  else Phase.ready

/-- What `App` returns: the loading placeholder, the error div, or the
canvas (which contains `AsteroidScene` only when `sceneData` is truthy). -/
inductive View where
  | loadingView
  | errorView (msg : String)
  | canvasView (scene : Option SceneGraph)
deriving DecidableEq, Repr

/-- The render body of `App`. -/
def renderApp (s : AppState) : View :=
  if s.loading then View.loadingView
  else
    match s.error with
    | some msg => View.errorView msg
    | none => View.canvasView (s.sceneData.map renderScene)

/-- The scene geometry a view contains (only the canvas holds any). -/
def View.geometry : View → List SceneElement
  | .canvasView (some g) => g.elements
  | .canvasView none => []
  | .loadingView => []
  | .errorView _ => []

/-! ## The frame loop (useFrame in AsteroidScene) -/

/-- The per-frame rotation increment: `groupRef.current.rotation.y += 0.001`. -/
def rotationIncrement : ℚ := 1/1000

/-- The mounted rotating group: its accumulated y rotation and content. -/
structure MountedGroup where
  rotationY : ℚ
  scene : SceneGraph
deriving DecidableEq, Repr

/-- One `useFrame` callback invocation: rotate, touch nothing else. -/
def frameStep (g : MountedGroup) : MountedGroup :=
  { g with rotationY := g.rotationY + rotationIncrement }

/-- `k` consecutive rendered frames. -/
def runFrames : Nat → MountedGroup → MountedGroup
  | 0, g => g
  | k + 1, g => runFrames k (frameStep g)

/-! ## Sample data used by witness theorems -/

/-- A sample asteroid record. -/
def sampleAsteroid : Asteroid :=
  { id := "a1", name := "Ceres", position := ⟨2, 3, 4⟩, size := 1/2
  , orbit := [⟨5, 0, 0⟩, ⟨0, 5, 0⟩, ⟨-5, 0, 0⟩] }

/-- A second sample asteroid record with a distinct id. -/
def sampleAsteroid2 : Asteroid :=
  { id := "a2", name := "Vesta", position := ⟨-1, 0, 7⟩, size := 2
  , orbit := [⟨8, 0, 0⟩, ⟨0, 0, 8⟩] }

/-- A sample payload with two asteroids. -/
def samplePayload : ScenePayload := ⟨[sampleAsteroid, sampleAsteroid2]⟩

/-! ## Helper lemmas -/

/-- Each asteroid's keyed group contributes exactly one sphere mesh. -/
lemma renderAsteroid_sphere_count (a : Asteroid) :
    ((renderAsteroid a).elements.filter SceneElement.isSphere).length = 1 := rfl

/-- Each asteroid's keyed group contributes exactly one polyline. -/
lemma renderAsteroid_line_count (a : Asteroid) :
    ((renderAsteroid a).elements.filter SceneElement.isLine).length = 1 := rfl

/-- Sphere count over the flattened asteroid groups equals the record count. -/
lemma flatten_sphere_count (l : List Asteroid) :
    ((((l.map renderAsteroid).map KeyedGroup.elements).flatten.filter
        SceneElement.isSphere)).length = l.length := by
  induction l with
  | nil => rfl
  | cons a rest ih =>
      simp only [List.map_cons, List.flatten_cons, List.filter_append,
        List.length_append, ih, List.length_cons]
      rw [renderAsteroid_sphere_count]
      omega

/-- Polyline count over the flattened asteroid groups equals the record count. -/
lemma flatten_line_count (l : List Asteroid) :
    ((((l.map renderAsteroid).map KeyedGroup.elements).flatten.filter
        SceneElement.isLine)).length = l.length := by
  induction l with
  | nil => rfl
  | cons a rest ih =>
      simp only [List.map_cons, List.flatten_cons, List.filter_append,
        List.length_append, ih, List.length_cons]
      rw [renderAsteroid_line_count]
      omega

/-- C1: For every scene payload whose asteroids list has N records, rendering
the payload produces exactly N+1 sphere meshes (one per asteroid plus the
fixed central body) and exactly N orbit polylines; in particular, for the
payload `{asteroids: []}` the scene contains only the central body, no
asteroid meshes, and no error display. -/
theorem scene_mesh_counts (data : ScenePayload) :
    ((renderScene data).elements.filter SceneElement.isSphere).length
        = data.asteroids.length + 1 ∧
    ((renderScene data).elements.filter SceneElement.isLine).length
        = data.asteroids.length ∧
    (renderScene ⟨[]⟩).elements = [SceneElement.sphere sunSphere] ∧
    renderApp (settle (FetchOutcome.success ⟨[]⟩) initialAppState)
        = View.canvasView (some (renderScene ⟨[]⟩)) := by
  refine ⟨?_, ?_, rfl, rfl⟩
  · show ((SceneElement.sphere sunSphere ::
        ((data.asteroids.map renderAsteroid).map KeyedGroup.elements).flatten).filter
          SceneElement.isSphere).length = data.asteroids.length + 1
    rw [List.filter_cons]
    simp only [SceneElement.isSphere, if_true, List.length_cons]
    rw [flatten_sphere_count]
  · show ((SceneElement.sphere sunSphere ::
        ((data.asteroids.map renderAsteroid).map KeyedGroup.elements).flatten).filter
          SceneElement.isLine).length = data.asteroids.length
    rw [List.filter_cons]
    simp only [SceneElement.isLine, if_false, Bool.false_eq_true]
    rw [flatten_line_count]

/-- C2: For every asteroid record in the payload, the sphere mesh rendered
for it has radius exactly the record's `size` and is positioned exactly at
the record's `position`, with no scaling, offset, or other transformation. -/
theorem asteroid_sphere_untransformed (data : ScenePayload) (a : Asteroid)
    (h : a ∈ data.asteroids) :
    ∃ kg ∈ (renderScene data).asteroidGroups,
      kg.key = a.id ∧
      kg.sphereMeshes =
        [{ radius := a.size, widthSegments := 16, heightSegments := 16
         , position := a.position, material := asteroidMaterial }] := by
  refine ⟨renderAsteroid a, List.mem_map_of_mem renderAsteroid h, rfl, rfl⟩

/-- Witness for C2 at a concrete payload and record. -/
theorem asteroid_sphere_untransformed_witness :
    sampleAsteroid ∈ samplePayload.asteroids ∧
    ∃ kg ∈ (renderScene samplePayload).asteroidGroups,
      kg.key = sampleAsteroid.id ∧
      kg.sphereMeshes =
        [{ radius := sampleAsteroid.size, widthSegments := 16, heightSegments := 16
         , position := sampleAsteroid.position, material := asteroidMaterial }] :=
  ⟨List.mem_cons_self sampleAsteroid [sampleAsteroid2],
   asteroid_sphere_untransformed samplePayload sampleAsteroid
     (List.mem_cons_self sampleAsteroid [sampleAsteroid2])⟩

/-- C3: For every asteroid record with an orbit of length at least 2, the
rendered polyline's point list equals the record's orbit list, in the same
order, with no reordering, insertion, or removal. -/
theorem orbit_polyline_order_preserving (data : ScenePayload) (a : Asteroid)
    (h : a ∈ data.asteroids) (_hlen : 2 ≤ a.orbit.length) :
    ∃ kg ∈ (renderScene data).asteroidGroups,
      kg.key = a.id ∧
      kg.polylines =
        [{ points := a.orbit, color := "white", lineWidth := 1
         , opacity := 3/10, transparent := true }] := by
  refine ⟨renderAsteroid a, List.mem_map_of_mem renderAsteroid h, rfl, rfl⟩

/-- Witness for C3 at a concrete payload and record. -/
theorem orbit_polyline_order_preserving_witness :
    sampleAsteroid ∈ samplePayload.asteroids ∧ 2 ≤ sampleAsteroid.orbit.length ∧
    ∃ kg ∈ (renderScene samplePayload).asteroidGroups,
      kg.key = sampleAsteroid.id ∧
      kg.polylines =
        [{ points := sampleAsteroid.orbit, color := "white", lineWidth := 1
         , opacity := 3/10, transparent := true }] :=
  ⟨List.mem_cons_self sampleAsteroid [sampleAsteroid2], by decide,
   orbit_polyline_order_preserving samplePayload sampleAsteroid
     (List.mem_cons_self sampleAsteroid [sampleAsteroid2]) (by decide)⟩

/-- C6: For every successfully retrieved payload, whatever its contents, the
fixed central body is rendered at the scene origin with constant appearance
(radius 1, fixed 32x32 tessellation, fixed yellow emissive material),
independent of the asteroids list, and it appears in the geometry of the
view `App` shows after the successful fetch. -/
theorem sun_fixed_at_origin (p : ScenePayload) :
    (renderScene p).sun =
      { radius := 1, widthSegments := 32, heightSegments := 32
      , position := ⟨0, 0, 0⟩, material := sunMaterial } ∧
    SceneElement.sphere sunSphere ∈
      (renderApp (settle (FetchOutcome.success p) initialAppState)).geometry := by
  constructor
  · rfl
  · show SceneElement.sphere sunSphere ∈ (renderScene p).elements
    exact List.mem_cons_self _ _

/-- The frame callback never touches the scene content. -/
lemma runFrames_scene (n : Nat) : ∀ g : MountedGroup,
    (runFrames n g).scene = g.scene := by
  induction n with
  | zero => intro g; rfl
  | succ m ih =>
      intro g
      show (runFrames m (frameStep g)).scene = g.scene
      rw [ih (frameStep g)]
      rfl

/-- Each frame adds exactly one increment to the accumulated rotation. -/
lemma runFrames_rotationY (n : Nat) : ∀ g : MountedGroup,
    (runFrames n g).rotationY = g.rotationY + n * rotationIncrement := by
  induction n with
  | zero => intro g; simp [runFrames]
  | succ m ih =>
      intro g
      have h1 : runFrames (m + 1) g = runFrames m (frameStep g) := rfl
      rw [h1, ih (frameStep g)]
      simp only [frameStep]
      push_cast
      ring

/-- C7: After K consecutive rendered frames with no payload change, the
cumulative y rotation of the whole scene group equals K times the fixed
per-frame increment 0.001, independent of the payload, and the scene
content itself is unchanged. -/
theorem rotation_linear_in_frames (k : Nat) (data : ScenePayload) :
    (runFrames k { rotationY := 0, scene := renderScene data }).rotationY
        = k * rotationIncrement ∧
    (runFrames k { rotationY := 0, scene := renderScene data }).scene
        = renderScene data := by
  constructor
  · rw [runFrames_rotationY]
    show (0 : ℚ) + k * rotationIncrement = k * rotationIncrement
    ring
  · exact runFrames_scene k _

/-- C4: Within a single mount, the fetch-state machine goes from `loading` to
`ready` exactly once on a successful retrieval, or from `loading` to `failed`
exactly once on a failed retrieval; there is no retry and the settled phase
is the last state of the mount's trace, so it is never left. -/
theorem fetch_state_machine_one_shot (o : FetchOutcome) :
    (mountTrace o).map AppState.phase =
      [Phase.loading,
       match o with
       | FetchOutcome.success _ => Phase.ready
       | FetchOutcome.failure _ => Phase.failed] := by
  cases o with
  | success p => rfl
  | failure c => rfl

/-- C5: For every fetch failure, whatever its cause, the mount's view trace
goes directly from the loading display to the single fixed generic error
display, and the failed state's view contains no scene geometry at all. -/
theorem failure_shows_generic_error (c : FetchError) :
    (mountTrace (FetchOutcome.failure c)).map renderApp =
      [View.loadingView, View.errorView "Failed to load asteroid data"] ∧
    (renderApp (settle (FetchOutcome.failure c) initialAppState)).geometry = [] := by
  cases c <;> exact ⟨rfl, rfl⟩

/-- When ids are unique, looking up an asteroid's id among the rendered keyed
groups finds exactly that asteroid's subtree. -/
lemma find_group_by_id (l : List Asteroid) (a : Asteroid)
    (hmem : a ∈ l) (hnodup : (l.map Asteroid.id).Nodup) :
    (l.map renderAsteroid).find? (fun kg => kg.key == a.id)
      = some (renderAsteroid a) := by
  induction l with
  | nil => cases hmem
  | cons b rest ih =>
      rw [List.map_cons] at hnodup
      rw [List.nodup_cons] at hnodup
      rw [List.map_cons]
      by_cases hb : b.id = a.id
      · have hab : a = b := by
          rcases List.mem_cons.mp hmem with h | h
          · exact h
          · exfalso
            apply hnodup.1
            rw [hb]
            exact List.mem_map_of_mem Asteroid.id h
      
        rw [List.find?_cons_of_pos]
        · rw [hab]
        · simp [renderAsteroid, hb]
      · have hab : a ≠ b := fun h => hb (by rw [h])
        have hmem' : a ∈ rest := by
          rcases List.mem_cons.mp hmem with h | h
          · exact absurd h hab
          · exact h
        rw [List.find?_cons_of_neg]
        · exact ih hmem' hnodup.2
        · simp [renderAsteroid, hb]

/-- C8: For every payload with unique asteroid ids, rendering again with
unchanged contents yields the identical scene; the subtree keys are exactly
the ids, hence collision-free, and looking up any record's id in the
rendered groups recovers exactly that record's subtree, so no sphere or
orbit is reassigned to another record across re-renders. -/
theorem rerender_idempotent_keyed_by_id (data : ScenePayload)
    (h : (data.asteroids.map Asteroid.id).Nodup) :
    renderScene data = renderScene data ∧
    (renderScene data).asteroidGroups.map KeyedGroup.key
        = data.asteroids.map Asteroid.id ∧
    ((renderScene data).asteroidGroups.map KeyedGroup.key).Nodup ∧
    ∀ a ∈ data.asteroids,
      (renderScene data).asteroidGroups.find? (fun kg => kg.key == a.id)
        = some (renderAsteroid a) := by
  refine ⟨rfl, ?_, ?_, ?_⟩
  · show (data.asteroids.map renderAsteroid).map KeyedGroup.key
        = data.asteroids.map Asteroid.id
    rw [List.map_map]
    rfl
  · show ((data.asteroids.map renderAsteroid).map KeyedGroup.key).Nodup
    rw [List.map_map]
    exact h
  · intro a ha
    exact find_group_by_id data.asteroids a ha h

/-- Witness for C8 at a concrete two-asteroid payload. -/
theorem rerender_idempotent_keyed_by_id_witness :
    (samplePayload.asteroids.map Asteroid.id).Nodup ∧
    ((renderScene samplePayload).asteroidGroups.map KeyedGroup.key
        = samplePayload.asteroids.map Asteroid.id ∧
      ∀ a ∈ samplePayload.asteroids,
        (renderScene samplePayload).asteroidGroups.find? (fun kg => kg.key == a.id)
          = some (renderAsteroid a)) := by
  have hnodup : (samplePayload.asteroids.map Asteroid.id).Nodup := by decide
  have h := rerender_idempotent_keyed_by_id samplePayload hnodup
  exact ⟨hnodup, h.2.1, h.2.2.2⟩

/-- Agreement of two asteroid records on every geometric field (everything
except `name`). -/
def Asteroid.sameGeometry (a b : Asteroid) : Prop :=
  a.id = b.id ∧ a.position = b.position ∧ a.size = b.size ∧ a.orbit = b.orbit

/-- `renderAsteroid` never reads `name`. -/
lemma renderAsteroid_name_irrelevant (a b : Asteroid) (h : a.sameGeometry b) :
    renderAsteroid a = renderAsteroid b := by
  obtain ⟨h1, h2, h3, h4⟩ := h
  simp [renderAsteroid, h1, h2, h3, h4]

/-- Mapping `renderAsteroid` over geometry-equal record lists gives equal
group lists. -/
lemma map_renderAsteroid_congr (l1 l2 : List Asteroid)
    (h : List.Forall₂ Asteroid.sameGeometry l1 l2) :
    l1.map renderAsteroid = l2.map renderAsteroid := by
  induction h with
  | nil => rfl
  | cons hab _ ih =>
      rw [List.map_cons, List.map_cons, ih, renderAsteroid_name_irrelevant _ _ hab]

/-- C9: Two payloads that differ only in the `name` fields of their records
(same ids, positions, sizes, orbits, pointwise) render to the identical
scene graph: `name` influences no mesh, transform, material, or polyline. -/
theorem name_noninterference (d1 d2 : ScenePayload)
    (h : List.Forall₂ Asteroid.sameGeometry d1.asteroids d2.asteroids) :
    renderScene d1 = renderScene d2 := by
  show SceneGraph.mk sunSphere (d1.asteroids.map renderAsteroid)
      = SceneGraph.mk sunSphere (d2.asteroids.map renderAsteroid)
  rw [map_renderAsteroid_congr _ _ h]

/-- The sample payload with every record's name replaced. -/
def samplePayloadRenamed : ScenePayload :=
  ⟨[{ sampleAsteroid with name := "Alpha" }, { sampleAsteroid2 with name := "Beta" }]⟩

/-- Witness for C9 at a concrete pair of payloads differing only in names. -/
theorem name_noninterference_witness :
    List.Forall₂ Asteroid.sameGeometry
        samplePayload.asteroids samplePayloadRenamed.asteroids ∧
    renderScene samplePayload = renderScene samplePayloadRenamed := by
  have hf : List.Forall₂ Asteroid.sameGeometry
      samplePayload.asteroids samplePayloadRenamed.asteroids :=
    List.Forall₂.cons ⟨rfl, rfl, rfl, rfl⟩
      (List.Forall₂.cons ⟨rfl, rfl, rfl, rfl⟩ List.Forall₂.nil)
  exact ⟨hf, name_noninterference _ _ hf⟩

/-- The states `App` can be in during one mount: the initial state or the
state after its single fetch settles. -/
def ReachableAppState (s : AppState) : Prop :=
  s = initialAppState ∨ ∃ o : FetchOutcome, s = settle o initialAppState

/-- C10: In every reachable state of `App`, the error message and the scene
payload are never both present: while loading both are absent, and once
loading is over exactly one of them is set. -/
theorem error_and_data_mutually_exclusive (s : AppState) (h : ReachableAppState s) :
    ¬(s.error.isSome ∧ s.sceneData.isSome) ∧
    (s.loading = true → s.sceneData = none ∧ s.error = none) ∧
    (s.loading = false → (s.error.isSome ↔ s.sceneData = none)) := by
  rcases h with h | ⟨o, h⟩
  · subst h
    refine ⟨?_, ?_, ?_⟩ <;> simp [initialAppState]
  · cases o with
    | success p =>
        subst h
        refine ⟨?_, ?_, ?_⟩ <;> simp [settle, initialAppState]
    | failure c =>
        subst h
        refine ⟨?_, ?_, ?_⟩ <;> simp [settle, initialAppState]

/-- Witness for C10 at the concrete state after a successful fetch. -/
theorem error_and_data_mutually_exclusive_witness :
    ReachableAppState (settle (FetchOutcome.success samplePayload) initialAppState) ∧
    ¬((settle (FetchOutcome.success samplePayload) initialAppState).error.isSome ∧
      (settle (FetchOutcome.success samplePayload) initialAppState).sceneData.isSome) :=
  ⟨Or.inr ⟨FetchOutcome.success samplePayload, rfl⟩,
   (error_and_data_mutually_exclusive _
     (Or.inr ⟨FetchOutcome.success samplePayload, rfl⟩)).1⟩
